import Mathlib

/-!
Shallow embedding of `mutagen/_tags.py`: the `PaddingInfo` padding-decision
object with its two sizing strategies, and the abstract `Tags`/`Metadata`
lifecycle contract.  Python floor division `//` is `Int.fdiv` and Python `%`
is `Int.fmod` (both take the sign of the divisor, exactly as in Python);
functions that can raise are embedded in `Except`.
-/

/-- Embeds the Python exceptions raised by this module: `ValueError` with its
message, and `NotImplementedError`. -/
inductive PyError where
  | valueError (msg : String)
  | notImplementedError
deriving Repr, DecidableEq

/-- Embeds the attribute record of a `PaddingInfo` instance after `__init__`
has run: the four canonical fields plus the two stored back-compat views
`padding` and `size`. -/
structure PaddingInfo where
  size_diff : Int
  new_tail_size : Int
  new_head_size : Option Int
  fs_block_size : Option Int
  padding : Int
  size : Int
deriving Repr, DecidableEq

/-- Embeds `PaddingInfo.__init__`: `self.size_diff = -padding`, the other
constructor arguments are stored as given, and the back-compat attributes are
`self.padding = -self.size_diff` and `self.size = self.new_tail_size`. -/
def PaddingInfo.init (padding new_tail_size : Int)
    (new_head_size fs_block_size : Option Int) : PaddingInfo :=
  let size_diff := -padding
  { size_diff := size_diff
    new_tail_size := new_tail_size
    new_head_size := new_head_size
    fs_block_size := fs_block_size
    padding := -size_diff
    size := new_tail_size }

/-- Embeds `PaddingInfo.get_padding_for_sharing`: `high = 1024*10 + size//100`,
`low = 1024 + size//1000`; keep nonnegative padding unless it exceeds `high`,
otherwise return `low`. -/
def PaddingInfo.get_padding_for_sharing (self : PaddingInfo) : Int :=
  let high := 1024 * 10 + Int.fdiv self.size 100
  let low := 1024 + Int.fdiv self.size 1000
  if self.padding ≥ 0 then
    if self.padding > high then
      low
    else
      self.padding
  else
    low

/-- Embeds `PaddingInfo.get_default_padding`, which just delegates to
`get_padding_for_sharing`. -/
def PaddingInfo.get_default_padding (self : PaddingInfo) : Int :=
  self.get_padding_for_sharing

/-- Embeds `PaddingInfo.get_padding_for_storage`: raises `ValueError` (with the
source's exact messages, including the `requries` typo) when `new_head_size`
or `fs_block_size` is absent, before any arithmetic; otherwise computes the
block-alignment preserving amount with Python `%` (`Int.fmod`). -/
def PaddingInfo.get_padding_for_storage (self : PaddingInfo) :
    Except PyError Int :=
  match self.new_head_size with
  | none =>
      .error (.valueError "get_padding_for_storage requires new_head_size")
  | some new_head_size =>
    match self.fs_block_size with
    | none =>
        .error (.valueError "get_padding_for_storage requries fs_block_size")
    | some fs_block_size =>
      let old_head_size := new_head_size - self.size_diff
      let old_align := Int.fmod old_head_size fs_block_size
      let res := fs_block_size - Int.fmod new_head_size fs_block_size
      let res := res + old_align
      .ok (Int.fmod res fs_block_size)

/-- Embeds `PaddingInfo._get_padding` for a pure user callback: with no user
function it returns `get_default_padding`, otherwise it returns
`user_func(self)` unmodified. -/
def PaddingInfo._get_padding (self : PaddingInfo)
    (user_func : Option (PaddingInfo → Int)) : Int :=
  match user_func with
  | none => self.get_default_padding
  | some f => f self

/-- Embeds `PaddingInfo._get_padding` polymorphically in the effects of the
user-supplied callback (Python callbacks may raise or have side effects), so
that exception propagation and invocation counting are expressible: the `none`
branch returns the default padding with no effect, the `some` branch is
exactly one application of the callback to `self`. -/
def PaddingInfo.getPaddingM {m : Type → Type} [Monad m] (self : PaddingInfo)
    (user_func : Option (PaddingInfo → m Int)) : m Int :=
  match user_func with
  | none => pure self.get_default_padding
  | some f => f self

/-- Embeds the "filething" source abstraction: an identifying path or an
already-open handle; an absent source is `Option.none` at use sites. -/
inductive Filething where
  | path (name : String)
  | handle (id : Nat)
deriving Repr, DecidableEq

/-- Embeds the attribute dictionary of a `Tags`/`Metadata` instance.  The base
classes store no attributes of their own, so a freshly allocated instance has
an empty dictionary. -/
structure MetadataState where
  attrs : List (String × String)
deriving Repr, DecidableEq

/-- Embeds a freshly allocated, unpopulated instance. -/
def MetadataState.empty : MetadataState := ⟨[]⟩

/-- Modelled from the spec: the `loadfile` decorator lives in
`mutagen/_util.py`, which is not part of this source tree; the spec places the
path-vs-handle file-opening wrapper out of scope as an external collaborator
that only opens/closes the source, so it is modelled as handing the source and
keyword arguments through to the wrapped operation unchanged. -/
def loadfile
    (body : MetadataState → Option Filething → List (String × String) →
      Except PyError MetadataState)
    (self : MetadataState) (filething : Option Filething)
    (kwargs : List (String × String)) : Except PyError MetadataState :=
  body self filething kwargs

/-- Embeds `Tags.pprint` on the base class: the body is a bare
`raise NotImplementedError`, so no successor state and no text are produced. -/
def Tags.pprint (self : MetadataState) :
    Except PyError (String × MetadataState) :=
  .error .notImplementedError

/-- Embeds `Metadata.load` on the base class: the wrapped body raises
`NotImplementedError` unconditionally. -/
def Metadata.load (self : MetadataState) (filething : Option Filething)
    (kwargs : List (String × String)) : Except PyError MetadataState :=
  loadfile (fun _ _ _ => .error .notImplementedError) self filething kwargs

/-- Embeds `Metadata.save` on the base class: the wrapped body raises
`NotImplementedError` unconditionally. -/
def Metadata.save (self : MetadataState) (filething : Option Filething)
    (kwargs : List (String × String)) : Except PyError MetadataState :=
  loadfile (fun _ _ _ => .error .notImplementedError) self filething kwargs

/-- Embeds `Metadata.delete` on the base class (it takes no extra keyword
arguments): the wrapped body raises `NotImplementedError` unconditionally. -/
def Metadata.delete (self : MetadataState) (filething : Option Filething) :
    Except PyError MetadataState :=
  loadfile (fun _ _ _ => .error .notImplementedError) self filething []

/-- Embeds `Metadata.__init__`: the freshly allocated instance is empty; when
positional or keyword arguments are given it calls `self.load` with exactly
those arguments (the first positional argument, if any, is the filething),
otherwise it returns the empty instance without calling `load`. -/
def Metadata.init (args : List (Option Filething))
    (kwargs : List (String × String)) : Except PyError MetadataState :=
  if args.isEmpty && kwargs.isEmpty then
    .ok MetadataState.empty
  else
    Metadata.load MetadataState.empty (args.headD none) kwargs

/-- Helper: `get_padding_for_sharing` on any instance equals the claim-shaped
conditional on the stored `padding` and `size` attributes. -/
theorem PaddingInfo.get_padding_for_sharing_eq (p : PaddingInfo) :
    p.get_padding_for_sharing =
      if 0 ≤ p.padding ∧ p.padding ≤ 1024 * 10 + Int.fdiv p.size 100 then
        p.padding
      else
        1024 + Int.fdiv p.size 1000 := by
  simp only [PaddingInfo.get_padding_for_sharing]
  generalize Int.fdiv p.size 100 = a
  generalize Int.fdiv p.size 1000 = b
  split_ifs <;> omega

/-- Helper: the attribute record produced by `PaddingInfo.__init__` called
with padding argument `-size_diff`. -/
theorem PaddingInfo.init_neg_fields (size_diff new_tail_size : Int)
    (new_head_size fs_block_size : Option Int) :
    (PaddingInfo.init (-size_diff) new_tail_size new_head_size fs_block_size) =
      { size_diff := size_diff, new_tail_size := new_tail_size,
        new_head_size := new_head_size, fs_block_size := fs_block_size,
        padding := -size_diff, size := new_tail_size } := by
  simp [PaddingInfo.init]

/-- C1: for every integer `size_diff` and nonnegative `new_tail_size`,
`get_padding_for_sharing` returns `padding_before = -size_diff` when
`0 ≤ padding_before ≤ high` with `high = 10240 + new_tail_size // 100`
(the comparison against `high` is strict, so equality keeps
`padding_before`), and `low = 1024 + new_tail_size // 1000` otherwise; the
result is always nonnegative, and the three concrete vectors give 500, 1025
and 1024. -/
theorem get_padding_for_sharing_spec :
    (∀ (size_diff new_tail_size : Int), 0 ≤ new_tail_size →
      ((PaddingInfo.init (-size_diff) new_tail_size none
          none).get_padding_for_sharing =
        if 0 ≤ -size_diff ∧
            -size_diff ≤ 10240 + Int.fdiv new_tail_size 100 then
          -size_diff
        else
          1024 + Int.fdiv new_tail_size 1000) ∧
      0 ≤ (PaddingInfo.init (-size_diff) new_tail_size none
          none).get_padding_for_sharing) ∧
    (PaddingInfo.init (-(-500)) 200 none none).get_padding_for_sharing =
      500 ∧
    (PaddingInfo.init (-(-70000)) 1000 none none).get_padding_for_sharing =
      1025 ∧
    (PaddingInfo.init (-300) 100 none none).get_padding_for_sharing =
      1024 := by
  refine ⟨?_, by decide, by decide, by decide⟩
  intro size_diff new_tail_size h
  rw [PaddingInfo.init_neg_fields, PaddingInfo.get_padding_for_sharing_eq]
  dsimp only
  constructor
  · norm_num
  · have hb : (0 : Int) ≤ Int.fdiv new_tail_size 1000 :=
      Int.fdiv_nonneg h (by norm_num)
    split_ifs with hc
    · exact hc.1
    · omega

/-- C1 witness: the general part of `get_padding_for_sharing_spec` applied at
`size_diff = -500`, `new_tail_size = 200`. -/
theorem get_padding_for_sharing_spec_witness :
    ((PaddingInfo.init (-(-500)) 200 none none).get_padding_for_sharing =
      if 0 ≤ -(-500 : Int) ∧
          -(-500 : Int) ≤ 10240 + Int.fdiv 200 100 then
        -(-500 : Int)
      else
        1024 + Int.fdiv 200 1000) ∧
    0 ≤ (PaddingInfo.init (-(-500)) 200 none none).get_padding_for_sharing :=
  get_padding_for_sharing_spec.1 (-500) 200 (by norm_num)

/-- C2: when `new_head_size` is present and nonnegative and `fs_block_size` is
present and positive, `get_padding_for_storage` returns
`((fs_block_size - (new_head_size mod fs_block_size)) +
((new_head_size - size_diff) mod fs_block_size)) mod fs_block_size` with the
nonnegative remainder (`Int.emod`); the concrete vector
`fs_block_size = 4096, new_head_size = 5000, size_diff = -200` gives 200. -/
theorem get_padding_for_storage_spec :
    (∀ (size_diff new_tail_size new_head_size fs_block_size : Int),
      0 ≤ new_head_size → 0 < fs_block_size →
      (PaddingInfo.init (-size_diff) new_tail_size (some new_head_size)
          (some fs_block_size)).get_padding_for_storage =
        .ok (((fs_block_size - new_head_size % fs_block_size) +
            (new_head_size - size_diff) % fs_block_size) % fs_block_size)) ∧
    (PaddingInfo.init (-(-200)) 0 (some 5000)
        (some 4096)).get_padding_for_storage = .ok 200 := by
  constructor
  · intro size_diff new_tail_size new_head_size fs_block_size hnh hfs
    rw [PaddingInfo.init_neg_fields]
    simp only [PaddingInfo.get_padding_for_storage]
    simp only [Int.fmod_eq_emod _ hfs.le]
  · rfl

/-- C2 witness: `get_padding_for_storage_spec` applied at the concrete vector
`size_diff = -200, new_tail_size = 0, new_head_size = 5000,
fs_block_size = 4096`. -/
theorem get_padding_for_storage_spec_witness :
    (PaddingInfo.init (-(-200)) 0 (some 5000)
        (some 4096)).get_padding_for_storage =
      .ok ((((4096 : Int) - 5000 % 4096) +
          (5000 - (-200)) % 4096) % 4096) :=
  get_padding_for_storage_spec.1 (-200) 0 5000 4096 (by norm_num)
    (by norm_num)

/-- C3: for every instance whose `new_head_size` is some `nh` and whose
`fs_block_size` is some positive `fs` — with `size_diff` arbitrary, including
values making `nh - size_diff` negative — the value returned by
`get_padding_for_storage` lies in `[0, fs)`. -/
theorem get_padding_for_storage_range (p : PaddingInfo) (nh fs r : Int)
    (hnh : p.new_head_size = some nh) (hfs : p.fs_block_size = some fs)
    (hpos : 0 < fs) (hr : p.get_padding_for_storage = .ok r) :
    0 ≤ r ∧ r < fs := by
  rw [PaddingInfo.get_padding_for_storage, hnh, hfs] at hr
  simp only [Except.ok.injEq] at hr
  rw [← hr, Int.fmod_eq_emod _ hpos.le]
  exact ⟨Int.emod_nonneg _ hpos.ne', Int.emod_lt_of_pos _ hpos⟩

/-- C3 witness: `get_padding_for_storage_range` applied at the instance with
`size_diff = 9000` (so that `new_head_size - size_diff = -4000 < 0`),
`new_head_size = 5000`, `fs_block_size = 4096`. -/
theorem get_padding_for_storage_range_witness :
    0 ≤ (3288 : Int) ∧ (3288 : Int) < 4096 :=
  get_padding_for_storage_range
    (PaddingInfo.init (-9000) 0 (some 5000) (some 4096)) 5000 4096 3288
    (by decide) (by decide) (by decide) (by rfl)

/-- C4: `get_padding_for_storage` fails with a `ValueError` naming the missing
field exactly when `new_head_size` is absent or `fs_block_size` is absent (the
error is produced instead of any computed value, `new_head_size` being checked
first), and when both fields are present it returns an `.ok` value, never this
error. -/
theorem get_padding_for_storage_requires_fields (p : PaddingInfo) :
    (p.new_head_size = none →
      p.get_padding_for_storage =
        .error (.valueError
          "get_padding_for_storage requires new_head_size")) ∧
    (∀ nh, p.new_head_size = some nh → p.fs_block_size = none →
      p.get_padding_for_storage =
        .error (.valueError
          "get_padding_for_storage requries fs_block_size")) ∧
    (∀ nh fs, p.new_head_size = some nh → p.fs_block_size = some fs →
      ∃ v, p.get_padding_for_storage = .ok v) ∧
    ((∃ e, p.get_padding_for_storage = .error e) ↔
      (p.new_head_size = none ∨ p.fs_block_size = none)) := by
  refine ⟨?_, ?_, ?_, ?_⟩
  · intro h
    rw [PaddingInfo.get_padding_for_storage, h]
  · intro nh h1 h2
    rw [PaddingInfo.get_padding_for_storage, h1, h2]
  · intro nh fs h1 h2
    rw [PaddingInfo.get_padding_for_storage, h1, h2]
    exact ⟨_, rfl⟩
  · rw [PaddingInfo.get_padding_for_storage]
    cases hn : p.new_head_size <;> cases hf : p.fs_block_size <;> simp

/-- C4 witness: `get_padding_for_storage_requires_fields` applied at three
concrete instances covering the missing-`new_head_size`, the
missing-`fs_block_size` and the both-present cases. -/
theorem get_padding_for_storage_requires_fields_witness :
    (PaddingInfo.init 0 0 none (some 4096)).get_padding_for_storage =
      .error (.valueError
        "get_padding_for_storage requires new_head_size") ∧
    (PaddingInfo.init 0 0 (some 5000) none).get_padding_for_storage =
      .error (.valueError
        "get_padding_for_storage requries fs_block_size") ∧
    ∃ v, (PaddingInfo.init 0 0 (some 5000)
        (some 4096)).get_padding_for_storage = .ok v :=
  ⟨(get_padding_for_storage_requires_fields
      (PaddingInfo.init 0 0 none (some 4096))).1 rfl,
   (get_padding_for_storage_requires_fields
      (PaddingInfo.init 0 0 (some 5000) none)).2.1 5000 rfl rfl,
   (get_padding_for_storage_requires_fields
      (PaddingInfo.init 0 0 (some 5000) (some 4096))).2.2.1 5000 4096
      rfl rfl⟩

/-- C5: resolving the strategy with no user-supplied function equals
`get_default_padding`, which equals `get_padding_for_sharing`, on every
instance. -/
theorem get_padding_none_eq_default (p : PaddingInfo) :
    p._get_padding none = p.get_default_padding ∧
    p.get_default_padding = p.get_padding_for_sharing :=
  ⟨rfl, rfl⟩

/-- C6: with a user-supplied strategy, `_get_padding` returns exactly the
callback's result, unmodified, in any effect context (so in particular a
negative or arbitrarily large pure result is passed through); a callback that
raises propagates its error unchanged, and a state-instrumented callback is
invoked exactly once, with the instance itself as sole argument. -/
theorem get_padding_user_strategy (p : PaddingInfo)
    (f : PaddingInfo → Int) (e : PyError) (g : PaddingInfo → Int) (n : Nat) :
    p._get_padding (some f) = f p ∧
    (∀ (m : Type → Type) (inst : Monad m) (f2 : PaddingInfo → m Int),
      @PaddingInfo.getPaddingM m inst p (some f2) = f2 p) ∧
    @PaddingInfo.getPaddingM (Except PyError) _ p
      (some (fun _ => Except.error e)) = Except.error e ∧
    @PaddingInfo.getPaddingM (StateM Nat) _ p
      (some (fun q k => (g q, k + 1))) n = (g p, n + 1) :=
  ⟨rfl, fun _ _ _ => rfl, rfl, rfl⟩

/-- C9: after `PaddingInfo.__init__` with arguments
`(padding, new_tail_size, new_head_size, fs_block_size)`, the stored fields
satisfy `size_diff = -padding`, `padding = -size_diff` and
`size = new_tail_size`. -/
theorem padding_info_init_views (padding new_tail_size : Int)
    (new_head_size fs_block_size : Option Int) :
    (PaddingInfo.init padding new_tail_size new_head_size
      fs_block_size).size_diff = -padding ∧
    (PaddingInfo.init padding new_tail_size new_head_size
        fs_block_size).padding =
      -(PaddingInfo.init padding new_tail_size new_head_size
        fs_block_size).size_diff ∧
    (PaddingInfo.init padding new_tail_size new_head_size
      fs_block_size).size = new_tail_size := by
  refine ⟨rfl, rfl, rfl⟩

/-- C7: calling any base-contract operation — `Tags.pprint`, `Metadata.load`,
`Metadata.save` or `Metadata.delete` — without a concrete override fails with
`NotImplementedError` for every instance state and every source: the error is
the whole outcome, so no successor state is produced and nothing is
swallowed. -/
theorem base_contract_unimplemented (s : MetadataState)
    (ft : Option Filething) (kwargs : List (String × String)) :
    Tags.pprint s = .error .notImplementedError ∧
    Metadata.load s ft kwargs = .error .notImplementedError ∧
    Metadata.save s ft kwargs = .error .notImplementedError ∧
    Metadata.delete s ft = .error .notImplementedError :=
  ⟨rfl, rfl, rfl, rfl⟩

/-- C8: constructing a `Metadata` with no arguments succeeds and yields the
empty, unpopulated instance (the `load` branch of `__init__` is not taken, so
no file is consulted). -/
theorem metadata_init_empty :
    Metadata.init [] [] = .ok MetadataState.empty :=
  rfl

/-- Helper: with a positional or keyword argument present, `__init__` takes
the `load` branch. -/
theorem metadata_init_nonempty (args : List (Option Filething))
    (kwargs : List (String × String))
    (h : args ≠ [] ∨ kwargs ≠ []) :
    Metadata.init args kwargs =
      Metadata.load MetadataState.empty (args.headD none) kwargs := by
  have hc : (args.isEmpty && kwargs.isEmpty) = false := by
    cases args <;> cases kwargs <;> simp_all
  rw [Metadata.init, hc]
  simp

/-- C10: `Metadata.__init__` with no arguments never takes the `load` branch
and returns the empty instance; with at least one positional or keyword
argument it calls `self.load` with exactly those arguments, so on the
abstract base class every non-empty construction — in particular
`Metadata(None)` — fails with `NotImplementedError`. -/
theorem metadata_init_dispatch (args : List (Option Filething))
    (kwargs : List (String × String)) :
    Metadata.init [] [] = .ok MetadataState.empty ∧
    (args ≠ [] ∨ kwargs ≠ [] →
      Metadata.init args kwargs =
        Metadata.load MetadataState.empty (args.headD none) kwargs) ∧
    (args ≠ [] ∨ kwargs ≠ [] →
      Metadata.init args kwargs = .error .notImplementedError) ∧
    Metadata.init [none] [] = .error .notImplementedError := by
  refine ⟨rfl, metadata_init_nonempty args kwargs, ?_, rfl⟩
  intro h
  rw [metadata_init_nonempty args kwargs h]
  rfl

/-- C10 witness: `metadata_init_dispatch` applied at `args = [none]` (the
embedding of `Metadata(None)`) with the non-emptiness hypotheses
discharged. -/
theorem metadata_init_dispatch_witness :
    Metadata.init [none] [] =
      Metadata.load MetadataState.empty none [] ∧
    Metadata.init [none] [] = .error .notImplementedError :=
  ⟨(metadata_init_dispatch [none] []).2.1 (Or.inl (by simp)),
   (metadata_init_dispatch [none] []).2.2.1 (Or.inl (by simp))⟩
